import Mathlib

/-!
Shallow embedding of the autoping-go health-signal state machine
(src/autoping.go, newest revision). Pure Go functions become Lean
functions; the mutable package-level variables become an explicit state
record threaded through the probe handler. Machine integers (Go int,
int64 and time.Duration, all 64-bit here) are modelled as Int with an
explicit wrap into the signed 64-bit range at every operation that can
overflow. A time.Time is modelled by the two observations the program
makes of it: the calendar year (the Year method) and an absolute
nanosecond count (used by Sub).
-/

/-- Wrap an unbounded integer into the signed 64-bit range, mirroring
the two-complement overflow of the Go int64 arithmetic. -/
def wrap64 (x : Int) : Int := (x + 2 ^ 63) % 2 ^ 64 - 2 ^ 63

/-- The smallest int64 value. On amd64, Go converts the NaN produced by
the 0/0 float64 division in queue.mean on an empty queue to this value;
on arm64 the conversion yields 0. Both are non-positive, so the
anomaly test `rtt > cutoff && cutoff > 0` fails either way; the model
fixes the amd64 value. -/
def int64Min : Int := -(2 ^ 63)

/-- One minute in nanoseconds (time.Minute as a time.Duration). -/
def minuteNs : Int := 60000000000

/-- A Go time.Time as observed by this program: the code reads only the
calendar year and nanosecond differences, so a year together with an
absolute nanosecond count is a faithful view. Sub is modelled as the
plain nanosecond difference; the saturation Go applies outside the
int64 range is monotone and therefore does not change the result of
the only comparison made with it (against the 2-minute constant). -/
structure GoTime where
  year : Int
  nanos : Int
deriving DecidableEq

/-- The zero value of time.Time; its Year method returns 1. -/
def zeroTime : GoTime := ⟨1, 0⟩

/-- Mirrors badPingInfo from src/autoping.go. -/
structure BadPingInfo where
  thisLatencyBad : Bool
  latency : Int
  timeFired : GoTime
deriving DecidableEq

/-- The zero value badPingInfo\x7b\x7d the Go guard compares against. -/
def zeroBadPing : BadPingInfo := ⟨false, 0, zeroTime⟩

/-- Mirrors connectionTracker from src/autoping.go. -/
structure ConnectionTracker where
  latestPing : BadPingInfo
  pingBeforeLatest : BadPingInfo
deriving DecidableEq

/-- Mirrors connectionTracker.getPreviousLatencyState: returns the
thisLatencyBad flag of pingBeforeLatest unless that field still holds
the zero value. -/
def ConnectionTracker.getPreviousLatencyState (c : ConnectionTracker) : Bool :=
  if c.pingBeforeLatest ≠ zeroBadPing then c.pingBeforeLatest.thisLatencyBad else false

/-- Mirrors connectionTracker.addPing: shift latestPing into
pingBeforeLatest and store the new ping as latestPing. -/
def ConnectionTracker.addPing (c : ConnectionTracker) (p : BadPingInfo) : ConnectionTracker :=
  ⟨p, c.latestPing⟩

/-- Mirrors outageInfo from src/autoping.go; durations in nanoseconds. -/
structure OutageInfo where
  isOutage : Bool
  missedPingNumber : Int
  reconnectTime : GoTime
  outageDuration : Int
deriving DecidableEq

/-- Mirrors badLatencyPeriod from src/autoping.go. -/
structure BadLatencyPeriod where
  isBadLatencyPeriod : Bool
  badLatencyNumber : Int
  resumeNormalTime : GoTime
  badLatencyPeriodDuration : Int
deriving DecidableEq

/-- The mutable package-level state of src/autoping.go gathered into one
record: thisOutage, thisBadLatency, dailyOutages.outageList,
dailyBadLatencyPeriods.badLatencyList, connTracker, normalLatencies and
lastSuccessfulPingTime. The meanLatency global is written and read only
inside evaluateLatency and is kept local there. -/
structure PingState where
  thisOutage : OutageInfo
  thisBadLatency : BadLatencyPeriod
  dailyOutages : List OutageInfo
  dailyBadLatencyPeriods : List BadLatencyPeriod
  connTracker : ConnectionTracker
  normalLatencies : List Int
  lastSuccessfulPingTime : GoTime
deriving DecidableEq

/-- The initial state: Go zero values for every global. -/
def initState : PingState :=
  { thisOutage := ⟨false, 0, zeroTime, 0⟩,
    thisBadLatency := ⟨false, 0, zeroTime, 0⟩,
    dailyOutages := [],
    dailyBadLatencyPeriods := [],
    connTracker := ⟨zeroBadPing, zeroBadPing⟩,
    normalLatencies := [],
    lastSuccessfulPingTime := zeroTime }

/-- Mirrors queue.add: append, evicting the oldest entry once the queue
already holds 10 entries. -/
def queueAdd (q : List Int) (f : Int) : List Int :=
  if q.length < 10 then q ++ [f] else q.tail ++ [f]

/-- Mirrors time.Duration(queue.mean()): the Go code sums the queue as
float64 and divides by the length, then truncates to int64 nanoseconds.
The stored samples are integer nanosecond counts, exact in float64 for
every realistic round-trip time, so the truncated exact quotient below
agrees with the float computation on the values this development uses.
On the empty queue the Go division is 0/0 = NaN, whose int64 conversion
is int64Min on amd64 (see int64Min). -/
def queueMeanDuration (q : List Int) : Int :=
  if q.length = 0 then int64Min
  else Int.tdiv q.sum (q.length : Int)

/-- The cutoff computed at the top of evaluateLatency:
meanLatency * 3 in int64 arithmetic. -/
def cutoffOf (q : List Int) : Int := wrap64 (queueMeanDuration q * 3)

/-- The lifecycle events of the spec, read off the code as follows:
OutageStarted is the transition of thisOutage.isOutage from false to
true at the probe being processed; OutageEnded is the oLog line
"Connection restored" together with addOutage; AnomalyPeriodStarted is
the transition of isBadLatencyPeriod from false to true; and
AnomalyPeriodEnded is the oLog line "Period of flakey latency finished"
together with addBadLatencyPeriod, carrying the recorded
resumeNormalTime and the computed duration. -/
inductive LifecycleEvent where
  | OutageStarted (time : GoTime)
  | OutageEnded (time : GoTime) (duration : Int)
  | AnomalyPeriodStarted (time : GoTime)
  | AnomalyPeriodEnded (time : GoTime) (duration : Int)
deriving DecidableEq

/-- Whether an event concerns the outage tracker. -/
def LifecycleEvent.isOutageEvent : LifecycleEvent → Bool
  | .OutageStarted _ => true
  | .OutageEnded _ _ => true
  | _ => false

/-- Mirrors evaluateLatency from src/autoping.go, returning the new
state and the lifecycle events of the call. The anomalous branch adds
the ping to connTracker and increments badLatencyNumber, setting
isBadLatencyPeriod once the count exceeds 2; the normal branch admits
the sample to the queue and, when getPreviousLatencyState is false and
the count exceeds 2, closes the period: it records resumeNormalTime
from pingBeforeLatest, computes the duration as count times one minute,
appends the period to the daily list and resets count and flag. -/
def evaluateLatency (s : PingState) (t : GoTime) (rtt : Int) :
    PingState × List LifecycleEvent :=
  let cutoff := cutoffOf s.normalLatencies
  if rtt > cutoff ∧ cutoff > 0 then
    let ct := s.connTracker.addPing ⟨true, rtt, t⟩
    let n := wrap64 (s.thisBadLatency.badLatencyNumber + 1)
    let bl :=
      if n > 2 then
        { s.thisBadLatency with badLatencyNumber := n, isBadLatencyPeriod := true }
      else
        { s.thisBadLatency with badLatencyNumber := n }
    let evs :=
      if n > 2 ∧ s.thisBadLatency.isBadLatencyPeriod = false then
        [LifecycleEvent.AnomalyPeriodStarted t]
      else []
    ({ s with connTracker := ct, thisBadLatency := bl }, evs)
  else
    let q := queueAdd s.normalLatencies rtt
    if s.connTracker.getPreviousLatencyState then
      ({ s with normalLatencies := q,
                connTracker := s.connTracker.addPing ⟨false, rtt, t⟩ }, [])
    else if s.thisBadLatency.badLatencyNumber > 2 then
      let resume := s.connTracker.pingBeforeLatest.timeFired
      let dur := wrap64 (s.thisBadLatency.badLatencyNumber * minuteNs)
      let closed := { s.thisBadLatency with
                        resumeNormalTime := resume,
                        badLatencyPeriodDuration := dur }
      ({ s with normalLatencies := q,
                dailyBadLatencyPeriods := s.dailyBadLatencyPeriods ++ [closed],
                thisBadLatency := { closed with badLatencyNumber := 0,
                                                isBadLatencyPeriod := false } },
       [LifecycleEvent.AnomalyPeriodEnded resume dur])
    else
      ({ s with normalLatencies := q }, [])

/-- One probe outcome per tick: a name-resolution failure from
ping.NewPinger, a timeout (stats.PacketsRecv == 0 in OnFinish), or a
success carrying the round-trip time handed to evaluateLatency. -/
inductive ProbeOutcome where
  | dnsFailure
  | timeout
  | success (rtt : Int)
deriving DecidableEq

/-- Mirrors the outcome handling of runPing from src/autoping.go.
The DNS-error branch acts only when the year of the last successful
ping equals the probe year and more than two minutes have passed since
that success; it then sets isOutage, increments missedPingNumber and
stores the count-based duration. The timeout branch always increments
missedPingNumber and activates the outage when the year matches and the
count exceeds 2. The success branch, when an outage is active, clears
it, records the reconnect time and count-based duration, appends the
outage to the daily list and resets the counter; in every case it then
updates lastSuccessfulPingTime and runs evaluateLatency. -/
def processProbe (s : PingState) (t : GoTime) (o : ProbeOutcome) :
    PingState × List LifecycleEvent :=
  match o with
  | .dnsFailure =>
    if s.lastSuccessfulPingTime.year = t.year ∧
        t.nanos - s.lastSuccessfulPingTime.nanos > 2 * minuteNs then
      let n := wrap64 (s.thisOutage.missedPingNumber + 1)
      let evs :=
        if s.thisOutage.isOutage = false then [LifecycleEvent.OutageStarted t] else []
      ({ s with thisOutage := { s.thisOutage with
                                  isOutage := true,
                                  missedPingNumber := n,
                                  outageDuration := wrap64 (n * minuteNs) } }, evs)
    else (s, [])
  | .timeout =>
    let n := wrap64 (s.thisOutage.missedPingNumber + 1)
    if s.lastSuccessfulPingTime.year = t.year ∧ n > 2 then
      let evs :=
        if s.thisOutage.isOutage = false then [LifecycleEvent.OutageStarted t] else []
      ({ s with thisOutage := { s.thisOutage with
                                  isOutage := true, missedPingNumber := n } }, evs)
    else
      ({ s with thisOutage := { s.thisOutage with missedPingNumber := n } }, [])
  | .success rtt =>
    if s.thisOutage.isOutage then
      let dur := wrap64 (s.thisOutage.missedPingNumber * minuteNs)
      let ended : OutageInfo :=
        { isOutage := false,
          missedPingNumber := s.thisOutage.missedPingNumber,
          reconnectTime := t,
          outageDuration := dur }
      let s1 := { s with thisOutage := { ended with missedPingNumber := 0 },
                         dailyOutages := s.dailyOutages ++ [ended],
                         lastSuccessfulPingTime := t }
      let r := evaluateLatency s1 t rtt
      (r.1, LifecycleEvent.OutageEnded t dur :: r.2)
    else
      let r := evaluateLatency { s with lastSuccessfulPingTime := t } t rtt
      (r.1, r.2)

/-- Process a list of timestamped probe outcomes in order, collecting
the emitted lifecycle events. -/
def runProbes (s : PingState) : List (GoTime × ProbeOutcome) → PingState × List LifecycleEvent
  | [] => (s, [])
  | p :: rest =>
    let r := processProbe s p.1 p.2
    let r2 := runProbes r.1 rest
    (r2.1, r.2 ++ r2.2)

/-- For each probe of a run, whether a success outcome was classified
anomalous by the cutoff test of evaluateLatency at the state in force
when it was processed (failures are recorded as false). -/
def classifiedAnomalous (s : PingState) : List (GoTime × ProbeOutcome) → List Bool
  | [] => []
  | p :: rest =>
    let b := match p.2 with
      | ProbeOutcome.success rtt =>
        decide (rtt > cutoffOf s.normalLatencies ∧ cutoffOf s.normalLatencies > 0)
      | _ => false
    b :: classifiedAnomalous (processProbe s p.1 p.2).1 rest

/-- The observable content of a fired daily digest. -/
structure DigestSummary where
  outageCount : Nat
  outageDetails : List OutageInfo
  anomalyCount : Nat
  anomalyDetails : List BadLatencyPeriod
deriving DecidableEq

/-- Mirrors dailyDigest from src/autoping.go: report the accumulated
outage and bad-latency records (the counts written are the list
lengths, the details one line per record) and reset both trackers to
empty. File-sink errors are a persistence concern outside the core. -/
def dailyDigest (s : PingState) : PingState × DigestSummary :=
  ({ s with dailyOutages := [], dailyBadLatencyPeriods := [] },
   { outageCount := s.dailyOutages.length,
     outageDetails := s.dailyOutages,
     anomalyCount := s.dailyBadLatencyPeriods.length,
     anomalyDetails := s.dailyBadLatencyPeriods })

/-- Probe timestamps one minute apart in a fixed current year. -/
def tmin (k : Int) : GoTime := ⟨2018, k * minuteNs⟩

/-! Helper lemmas shared by several claims. -/

/-- Values already inside the int64 range are fixed by wrap64. -/
theorem wrap64_eq_self (x : Int) (h1 : -(2 ^ 63) ≤ x) (h2 : x < 2 ^ 63) : wrap64 x = x := by
  unfold wrap64
  omega

/-- evaluateLatency emits only anomaly-period events, never outage
events. -/
theorem evaluateLatency_no_outage_events (s : PingState) (t : GoTime) (rtt : Int) :
    ∀ e ∈ (evaluateLatency s t rtt).2, e.isOutageEvent = false := by
  intro e he
  simp only [evaluateLatency] at he
  split_ifs at he <;> simp_all [LifecycleEvent.isOutageEvent]

/-! Concrete probe runs used as failing inputs and counterexamples.
All timestamps lie in one year, one probe interval (one minute) apart,
so the year guard of the outage tracker is satisfied once a success has
been recorded. Normal probes have a 30ms round-trip time and spikes
1s, far above the 3-times-mean cutoff of a 30ms baseline. -/

/-- Run for claim C1: success, two timeouts, success. -/
def c1Run4 : List (GoTime × ProbeOutcome) :=
  [(tmin 0, .success 30000000), (tmin 1, .timeout), (tmin 2, .timeout),
   (tmin 3, .success 30000000)]

/-- Run for claim C1 extended by a single further timeout. -/
def c1Run5 : List (GoTime × ProbeOutcome) := c1Run4 ++ [(tmin 4, .timeout)]

/-- Run for claim C2: baseline sample, three anomalous latencies, then
two consecutive normal latencies. -/
def c2Run6 : List (GoTime × ProbeOutcome) :=
  [(tmin 0, .success 30000000),
   (tmin 1, .success 1000000000), (tmin 2, .success 1000000000), (tmin 3, .success 1000000000),
   (tmin 4, .success 30000000), (tmin 5, .success 30000000)]

/-- Run for claim C2 extended by a third consecutive normal latency. -/
def c2Run7 : List (GoTime × ProbeOutcome) := c2Run6 ++ [(tmin 6, .success 30000000)]

/-- Run for claim C3: a success, exactly three consecutive timeouts,
then a success. -/
def c3Run : List (GoTime × ProbeOutcome) :=
  [(tmin 0, .success 30000000), (tmin 1, .timeout), (tmin 2, .timeout), (tmin 3, .timeout),
   (tmin 4, .success 30000000)]

/-- State for claim C4: a success was recorded at the start of the
current year, two misses are already counted, no outage is active, and
the probe arrives one minute after the recorded success. -/
def c4State : PingState :=
  { initState with
      thisOutage := { initState.thisOutage with missedPingNumber := 2 },
      lastSuccessfulPingTime := ⟨2018, 0⟩ }

/-- Run for claims C8 and C10: three isolated latency spikes, each
surrounded by normal latencies, never two in a row. -/
def isolatedSpikesRun : List (GoTime × ProbeOutcome) :=
  [(tmin 0, .success 30000000), (tmin 1, .success 30000000), (tmin 2, .success 1000000000),
   (tmin 3, .success 30000000), (tmin 4, .success 30000000), (tmin 5, .success 1000000000),
   (tmin 6, .success 30000000), (tmin 7, .success 30000000), (tmin 8, .success 1000000000)]

set_option maxRecDepth 8000 in
/-- Claim C1 (code bug): the claim says that a success processed while
no outage is active resets the consecutive-miss counter to 0, so a run
of 1-2 failures followed by a success never contributes to a later
outage. The code resets the counter only when an outage ends: after
success, timeout, timeout, success the counter still holds 2 and no
event was emitted, and one further single timeout then starts an
outage. -/
theorem c1_success_does_not_reset_missCounter :
    (runProbes initState c1Run4).1.thisOutage.isOutage = false ∧
    (runProbes initState c1Run4).1.thisOutage.missedPingNumber = 2 ∧
    (runProbes initState c1Run4).2 = [] ∧
    (runProbes initState c1Run5).2 = [LifecycleEvent.OutageStarted (tmin 4)] := by
  decide

set_option maxRecDepth 8000 in
/-- Claim C2 (code bug): the claim says an active anomaly period is
closed at the second consecutive normal probe. In the code,
getPreviousLatencyState reads pingBeforeLatest, the recorded probe
before the previous one, so after three anomalous probes and two
consecutive normal probes the period is still active and no
AnomalyPeriodEnded has been emitted; only a third consecutive normal
probe closes it. -/
theorem c2_second_normal_does_not_close :
    (runProbes initState c2Run6).2 = [LifecycleEvent.AnomalyPeriodStarted (tmin 3)] ∧
    (runProbes initState c2Run6).1.thisBadLatency.isBadLatencyPeriod = true ∧
    (runProbes initState c2Run7).2 =
      [LifecycleEvent.AnomalyPeriodStarted (tmin 3),
       LifecycleEvent.AnomalyPeriodEnded (tmin 4) 180000000000] := by
  decide

set_option maxRecDepth 8000 in
/-- Claim C3 counterexample: from a clean state with one recorded
success, exactly three consecutive timeouts followed by a success emit
OutageStarted only at the third failed probe, carrying that probe
timestamp (the code records no start time and transitions once the
count exceeds 2), not the timestamp of the first failed probe as the
claim states; the OutageEnded duration of 3 probe intervals does hold. -/
theorem c3_counterexample :
    (runProbes initState c3Run).2 =
      [LifecycleEvent.OutageStarted (tmin 3),
       LifecycleEvent.OutageEnded (tmin 4) 180000000000] ∧
    tmin 3 ≠ tmin 1 := by
  decide

/-- Claim C4 counterexample: from a state with two counted misses and a
success recorded one minute ago in the current year, a timeout
increments the counter to 3 and starts an outage, while a DNS failure
at the same timestamp leaves the state completely unchanged and emits
nothing, because its guard needs more than two minutes since the last
success: the two failure kinds are not equivalent. -/
theorem c4_counterexample :
    processProbe c4State (tmin 1) ProbeOutcome.dnsFailure = (c4State, []) ∧
    (processProbe c4State (tmin 1) ProbeOutcome.timeout).2 =
      [LifecycleEvent.OutageStarted (tmin 1)] ∧
    (processProbe c4State (tmin 1) ProbeOutcome.timeout).1.thisOutage.isOutage = true := by
  decide

set_option maxRecDepth 8000 in
/-- Claim C8 counterexample: in a run whose per-probe anomaly
classifications are exactly three isolated spikes, each surrounded by
normal latencies and never two in a row, the third spike still emits
AnomalyPeriodStarted, because badLatencyNumber is never reset between
runs shorter than three. -/
theorem c8_counterexample :
    classifiedAnomalous initState isolatedSpikesRun =
      [false, false, true, false, false, true, false, false, true] ∧
    (runProbes initState isolatedSpikesRun).2 =
      [LifecycleEvent.AnomalyPeriodStarted (tmin 8)] := by
  decide

/-- Claim C5 (confirmed): when the latency baseline window is empty the
cutoff computed from the mean is not positive (the 0/0 mean is NaN,
converted to a non-positive integer), so the anomaly test fails for
every latency value and the probe is handled by the normal branch,
which admits the sample into the window. -/
theorem c5_empty_baseline_never_fires (s : PingState) (t : GoTime) (rtt : Int)
    (h : s.normalLatencies = []) :
    cutoffOf s.normalLatencies ≤ 0 ∧
    ¬(rtt > cutoffOf s.normalLatencies ∧ cutoffOf s.normalLatencies > 0) ∧
    (evaluateLatency s t rtt).1.normalLatencies = [rtt] := by
  have hc : cutoffOf ([] : List Int) = -(2 ^ 63) := by decide
  rw [h, hc]
  refine ⟨by norm_num, by omega, ?_⟩
  have hcond : ¬(rtt > cutoffOf s.normalLatencies ∧ cutoffOf s.normalLatencies > 0) := by
    rw [h, hc]
    omega
  simp only [evaluateLatency, if_neg hcond]
  split_ifs <;> simp [queueAdd, h]

/-- Witness for claim C5 at a concrete state and latency. -/
theorem c5_empty_baseline_never_fires_witness :
    cutoffOf initState.normalLatencies ≤ 0 ∧
    ¬((5 : Int) > cutoffOf initState.normalLatencies ∧ cutoffOf initState.normalLatencies > 0) ∧
    (evaluateLatency initState (tmin 0) 5).1.normalLatencies = [5] :=
  c5_empty_baseline_never_fires initState (tmin 0) 5 (by decide)

/-- One queue.add step keeps the queue within 10 entries. -/
theorem queueAdd_length_le (q : List Int) (f : Int) (h : q.length ≤ 10) :
    (queueAdd q f).length ≤ 10 := by
  unfold queueAdd
  split_ifs with hlen
  · simp
    omega
  · rcases q with _ | ⟨a, q⟩
    · simp at hlen
    · simp at h ⊢
      omega

/-- Folding queue.add over any sample list keeps the bound. -/
theorem foldl_queueAdd_length_le (l : List Int) (q : List Int) (h : q.length ≤ 10) :
    (l.foldl queueAdd q).length ≤ 10 := by
  induction l generalizing q with
  | nil => simpa using h
  | cons a l ih => exact ih _ (queueAdd_length_le q a h)

/-- Claim C6 (confirmed): starting from the empty window, admitting any
sequence of samples never leaves more than 10 entries; once the window
holds exactly 10 entries an admission evicts precisely the oldest entry
and appends the new sample; and after ten 30ms samples an eleventh 30ms
sample evicts the first while the mean stays 30ms. -/
theorem c6_fifo_capacity :
    (∀ samples : List Int, (samples.foldl queueAdd []).length ≤ 10) ∧
    (∀ (q : List Int) (f : Int), q.length = 10 → queueAdd q f = q.tail ++ [f]) ∧
    queueAdd (List.replicate 10 (30000000 : Int)) 30000000 =
      List.replicate 10 (30000000 : Int) ∧
    queueMeanDuration (List.replicate 10 (30000000 : Int)) = 30000000 := by
  refine ⟨fun samples => foldl_queueAdd_length_le samples [] (by simp), ?_, by decide, by decide⟩
  intro q f h
  unfold queueAdd
  rw [if_neg (by omega)]

/-- Witness for claim C6: eviction of the oldest entry at capacity. -/
theorem c6_fifo_capacity_witness :
    queueAdd [1, 2, 3, 4, 5, 6, 7, 8, 9, 10] 11 = [2, 3, 4, 5, 6, 7, 8, 9, 10, 11] := by
  have h := c6_fifo_capacity.2.1 [1, 2, 3, 4, 5, 6, 7, 8, 9, 10] 11 (by decide)
  simpa using h

/-- Claim C7 (confirmed): a latency that the cutoff test classifies as
anomalous is never admitted into the baseline window, while a latency
classified as normal is admitted through queue.add; so the window only
ever receives samples that were classified normal at admission time. -/
theorem c7_anomalous_never_admitted :
    (∀ (s : PingState) (t : GoTime) (rtt : Int),
      (rtt > cutoffOf s.normalLatencies ∧ cutoffOf s.normalLatencies > 0) →
      (evaluateLatency s t rtt).1.normalLatencies = s.normalLatencies) ∧
    (∀ (s : PingState) (t : GoTime) (rtt : Int),
      ¬(rtt > cutoffOf s.normalLatencies ∧ cutoffOf s.normalLatencies > 0) →
      (evaluateLatency s t rtt).1.normalLatencies = queueAdd s.normalLatencies rtt) := by
  constructor
  · intro s t rtt h
    simp only [evaluateLatency, if_pos h]
  · intro s t rtt h
    simp only [evaluateLatency, if_neg h]
    split_ifs <;> rfl

/-- Witness for claim C7: a 1s spike over a 30ms baseline is rejected,
a 30ms sample over the same baseline is admitted. -/
theorem c7_anomalous_never_admitted_witness :
    (evaluateLatency { initState with normalLatencies := [30000000] } (tmin 1)
        1000000000).1.normalLatencies = [30000000] ∧
    (evaluateLatency { initState with normalLatencies := [30000000] } (tmin 1)
        30000000).1.normalLatencies = [30000000, 30000000] := by
  constructor
  · exact c7_anomalous_never_admitted.1 _ (tmin 1) 1000000000 (by decide)
  · have h := c7_anomalous_never_admitted.2 { initState with normalLatencies := [30000000] }
      (tmin 1) 30000000 (by decide)
    simpa [queueAdd] using h

/-- Claim C9 (confirmed): firing the daily digest always clears both
accumulated record lists, and when zero completed outages and zero
completed anomaly periods have accumulated the produced summary reports
outageCount 0 and anomalyCount 0; the model raises no error (file-sink
failures are outside the core). -/
theorem c9_digest_zero_and_clears (s : PingState)
    (h1 : s.dailyOutages = []) (h2 : s.dailyBadLatencyPeriods = []) :
    (dailyDigest s).2.outageCount = 0 ∧ (dailyDigest s).2.anomalyCount = 0 ∧
    ∀ s2 : PingState, (dailyDigest s2).1.dailyOutages = [] ∧
      (dailyDigest s2).1.dailyBadLatencyPeriods = [] := by
  refine ⟨?_, ?_, fun s2 => ⟨rfl, rfl⟩⟩
  · simp [dailyDigest, h1]
  · simp [dailyDigest, h2]

/-- Witness for claim C9 at the initial state. -/
theorem c9_digest_zero_and_clears_witness :
    (dailyDigest initState).2.outageCount = 0 ∧ (dailyDigest initState).2.anomalyCount = 0 ∧
    ∀ s2 : PingState, (dailyDigest s2).1.dailyOutages = [] ∧
      (dailyDigest s2).1.dailyBadLatencyPeriods = [] :=
  c9_digest_zero_and_clears initState (by decide) (by decide)

/-- Claim C8 amended: a single anomalous latency surrounded by normal
latencies produces no anomaly event provided the consecutive-anomaly
counter is at most 1 and no period is active when the spike arrives;
the spike only advances the counter to at most 2. Because the counter
is reset only when a period closes, isolated spikes accumulate across
separate runs, and a spike arriving with the counter already at 2
starts a period (see the counterexample); while the counter stays at
most 2 the normal probes around the spike also emit nothing. -/
theorem c8_single_spike_silent_when_counter_low :
    (∀ (s : PingState) (t : GoTime) (rtt : Int),
      (rtt > cutoffOf s.normalLatencies ∧ cutoffOf s.normalLatencies > 0) →
      0 ≤ s.thisBadLatency.badLatencyNumber →
      s.thisBadLatency.badLatencyNumber ≤ 1 →
      s.thisBadLatency.isBadLatencyPeriod = false →
      (evaluateLatency s t rtt).2 = [] ∧
      (evaluateLatency s t rtt).1.thisBadLatency.isBadLatencyPeriod = false ∧
      (evaluateLatency s t rtt).1.thisBadLatency.badLatencyNumber =
        s.thisBadLatency.badLatencyNumber + 1) ∧
    (∀ (s : PingState) (t : GoTime) (rtt : Int),
      ¬(rtt > cutoffOf s.normalLatencies ∧ cutoffOf s.normalLatencies > 0) →
      s.thisBadLatency.badLatencyNumber ≤ 2 →
      (evaluateLatency s t rtt).2 = []) := by
  constructor
  · intro s t rtt h h0 h1 hflag
    have hn : wrap64 (s.thisBadLatency.badLatencyNumber + 1) =
        s.thisBadLatency.badLatencyNumber + 1 :=
      wrap64_eq_self _ (by omega) (by omega)
    have hngt : ¬(wrap64 (s.thisBadLatency.badLatencyNumber + 1) > 2) := by
      rw [hn]
      omega
    simp only [evaluateLatency, if_pos h, if_neg hngt]
    refine ⟨?_, by simpa using hflag, by simpa using hn⟩
    rw [if_neg]
    intro hcontr
    exact hngt hcontr.1
  · intro s t rtt h h2
    simp only [evaluateLatency, if_neg h]
    split_ifs with hprev hclose
    · rfl
    · omega
    · rfl

/-- Witness for claim C8: one spike over a 30ms baseline with a zero
counter, followed by a normal probe, emits nothing. -/
theorem c8_single_spike_silent_witness :
    (evaluateLatency { initState with normalLatencies := [30000000] } (tmin 1)
        1000000000).2 = [] ∧
    (evaluateLatency { initState with normalLatencies := [30000000] } (tmin 2)
        30000000).2 = [] := by
  constructor
  · exact (c8_single_spike_silent_when_counter_low.1 _ (tmin 1) 1000000000 (by decide)
      (by decide) (by decide) (by decide)).1
  · exact c8_single_spike_silent_when_counter_low.2 _ (tmin 2) 30000000 (by decide) (by decide)

set_option maxRecDepth 8000 in
/-- Claim C10 (confirmed, implicit): the consecutive-anomaly counter is
reset to 0 only when a period whose count exceeds 2 is closed: a normal
probe processed with a counter of 1 or 2 leaves the counter unchanged,
and any step that takes a positive counter to 0 must have started from
a counter above 2. Consequently isolated anomalous probes accumulate:
after the first 8 probes of the isolated-spikes run (two isolated
spikes, each followed by normal probes) the counter holds 2, and the
third isolated spike activates an anomaly period even though no 3
consecutive anomalous probes ever occurred. -/
theorem c10_counter_reset_only_on_close :
    (∀ (s : PingState) (t : GoTime) (rtt : Int),
      ¬(rtt > cutoffOf s.normalLatencies ∧ cutoffOf s.normalLatencies > 0) →
      0 < s.thisBadLatency.badLatencyNumber →
      s.thisBadLatency.badLatencyNumber ≤ 2 →
      (evaluateLatency s t rtt).1.thisBadLatency.badLatencyNumber =
        s.thisBadLatency.badLatencyNumber) ∧
    (∀ (s : PingState) (t : GoTime) (rtt : Int),
      0 < s.thisBadLatency.badLatencyNumber →
      (evaluateLatency s t rtt).1.thisBadLatency.badLatencyNumber = 0 →
      s.thisBadLatency.badLatencyNumber > 2) ∧
    (runProbes initState (isolatedSpikesRun.take 8)).1.thisBadLatency.badLatencyNumber = 2 ∧
    (runProbes initState isolatedSpikesRun).1.thisBadLatency.badLatencyNumber = 3 ∧
    (runProbes initState isolatedSpikesRun).1.thisBadLatency.isBadLatencyPeriod = true := by
  refine ⟨?_, ?_, by decide, by decide, by decide⟩
  · intro s t rtt h hpos hle
    simp only [evaluateLatency, if_neg h]
    split_ifs with hprev hclose
    · rfl
    · omega
    · rfl
  · intro s t rtt hpos hzero
    simp only [evaluateLatency] at hzero
    split_ifs at hzero
    all_goals first
      | (unfold wrap64 at hzero; omega)
      | (simp at hzero; unfold wrap64 at hzero; omega)
      | (simp at hzero; omega)

/-- Witness for claim C10: retention of a counter of 2 across a normal
probe, and the derivation that a reset step came from a count above 2. -/
theorem c10_counter_reset_only_on_close_witness :
    (evaluateLatency
        { initState with
            normalLatencies := [30000000],
            thisBadLatency := { initState.thisBadLatency with badLatencyNumber := 2 } }
        (tmin 1) 30000000).1.thisBadLatency.badLatencyNumber = 2 := by
  exact c10_counter_reset_only_on_close.1 _ (tmin 1) 30000000 (by decide) (by decide) (by decide)

/-- Claim C3 amended: for three consecutive timeouts followed by a
success, starting from a state with no active outage, a consecutive-
miss count of 0 and a recorded success in the probe year, exactly one
OutageStarted is emitted, at the third failed probe and carrying that
probe timestamp (the code records no start time and transitions once
the count exceeds 2), and exactly one OutageEnded is emitted at the
success with duration 3 probe intervals; the zero-count premise is
needed because a success outside an outage does not reset the count. -/
theorem c3_amended (s : PingState) (t1 t2 t3 t4 : GoTime) (rtt : Int)
    (hact : s.thisOutage.isOutage = false)
    (hcnt : s.thisOutage.missedPingNumber = 0)
    (hy1 : s.lastSuccessfulPingTime.year = t1.year)
    (hy2 : s.lastSuccessfulPingTime.year = t2.year)
    (hy3 : s.lastSuccessfulPingTime.year = t3.year) :
    ((runProbes s [(t1, .timeout), (t2, .timeout), (t3, .timeout),
        (t4, .success rtt)]).2).filter LifecycleEvent.isOutageEvent =
      [LifecycleEvent.OutageStarted t3, LifecycleEvent.OutageEnded t4 180000000000] := by
  have w1 : wrap64 1 = 1 := by decide
  have w2 : wrap64 2 = 2 := by decide
  have w3 : wrap64 3 = 3 := by decide
  have w4 : wrap64 (3 * minuteNs) = 180000000000 := by decide
  obtain ⟨⟨oact, ocnt, orct, odur⟩, bl, dout, dbl, ct, nl, lsp⟩ := s
  simp only [OutageInfo.isOutage, OutageInfo.missedPingNumber, PingState.thisOutage,
    PingState.lastSuccessfulPingTime] at hact hcnt hy1 hy2 hy3
  subst hact hcnt
  have h13 : t1.year = t3.year := by rw [← hy1, hy3]
  have hnil : ∀ s2 : PingState,
      (evaluateLatency s2 t4 rtt).2.filter LifecycleEvent.isOutageEvent = [] := by
    intro s2
    rw [List.filter_eq_nil_iff]
    intro e he
    simp [evaluateLatency_no_outage_events s2 t4 rtt e he]
  simp [runProbes, processProbe, w1, w2, w3, w4, hy1, hy2, hy3, h13, List.filter_cons, hnil,
    LifecycleEvent.isOutageEvent]

/-- Witness for claim C3 amended at a concrete state and timestamps. -/
theorem c3_amended_witness :
    ((runProbes { initState with lastSuccessfulPingTime := ⟨2018, 0⟩ }
        [(tmin 1, .timeout), (tmin 2, .timeout), (tmin 3, .timeout),
         (tmin 4, .success 30000000)]).2).filter LifecycleEvent.isOutageEvent =
      [LifecycleEvent.OutageStarted (tmin 3),
       LifecycleEvent.OutageEnded (tmin 4) 180000000000] :=
  c3_amended _ (tmin 1) (tmin 2) (tmin 3) (tmin 4) 30000000 rfl rfl rfl rfl rfl

/-- Claim C4 amended: name-resolution failures and timeouts both route
misses into the same counter, missedPingNumber, and neither touches the
latency pipeline, the daily lists or the last-success time; but they
are not equivalent: a timeout always increments the counter and
activates the outage exactly when the last-success year matches and the
incremented count exceeds 2, while a DNS failure increments the counter
and activates exactly when the last-success year matches and more than
two minutes have passed since the last success. -/
theorem c4_amended (s : PingState) (t : GoTime) :
    ((processProbe s t ProbeOutcome.dnsFailure).1.thisBadLatency = s.thisBadLatency ∧
     (processProbe s t ProbeOutcome.dnsFailure).1.dailyOutages = s.dailyOutages ∧
     (processProbe s t ProbeOutcome.dnsFailure).1.normalLatencies = s.normalLatencies ∧
     (processProbe s t ProbeOutcome.dnsFailure).1.lastSuccessfulPingTime =
       s.lastSuccessfulPingTime ∧
     (processProbe s t ProbeOutcome.timeout).1.thisBadLatency = s.thisBadLatency ∧
     (processProbe s t ProbeOutcome.timeout).1.dailyOutages = s.dailyOutages ∧
     (processProbe s t ProbeOutcome.timeout).1.normalLatencies = s.normalLatencies ∧
     (processProbe s t ProbeOutcome.timeout).1.lastSuccessfulPingTime =
       s.lastSuccessfulPingTime) ∧
    ((processProbe s t ProbeOutcome.timeout).1.thisOutage.missedPingNumber =
      wrap64 (s.thisOutage.missedPingNumber + 1)) ∧
    ((processProbe s t ProbeOutcome.dnsFailure).1.thisOutage.missedPingNumber =
        wrap64 (s.thisOutage.missedPingNumber + 1) ↔
      s.lastSuccessfulPingTime.year = t.year ∧
        t.nanos - s.lastSuccessfulPingTime.nanos > 2 * minuteNs) ∧
    ((processProbe s t ProbeOutcome.timeout).1.thisOutage.isOutage = true ↔
      s.thisOutage.isOutage = true ∨
        s.lastSuccessfulPingTime.year = t.year ∧
          wrap64 (s.thisOutage.missedPingNumber + 1) > 2) ∧
    ((processProbe s t ProbeOutcome.dnsFailure).1.thisOutage.isOutage = true ↔
      s.thisOutage.isOutage = true ∨
        s.lastSuccessfulPingTime.year = t.year ∧
          t.nanos - s.lastSuccessfulPingTime.nanos > 2 * minuteNs) := by
  have hne : ∀ x : Int, wrap64 (x + 1) ≠ x := by
    intro x
    unfold wrap64
    omega
  have hne2 : ∀ x : Int, x ≠ wrap64 (x + 1) := fun x => (hne x).symm
  by_cases hy : s.lastSuccessfulPingTime.year = t.year
  · by_cases hn : 2 < wrap64 (s.thisOutage.missedPingNumber + 1) <;>
      by_cases hsub : t.nanos - s.lastSuccessfulPingTime.nanos > 2 * minuteNs <;>
        by_cases hact : s.thisOutage.isOutage = true <;>
          simp [processProbe, hy, hn, hsub, hact, hne, hne2]
  · simp [processProbe, hy, hne, hne2]
